import Mathlib

/-!
Verification of the wasm API compatibility checker in
src/lib/vm/src/compatability.rs.

The checker consumes the symbol collection produced by the external wasm_nm
extractor and runs two containment checks against two compiled-in tables.
We embed the symbol data model, the two containment primitives and the
orchestrating function, parameterising the latter over the extractor
(an external collaborator).
-/

namespace Compatability

/-- A symbol record produced by the wasm_nm extractor: tagged as Import or
Export and carrying a name.  The extractor output space also has private
and size records, but the PUBLIC_SYMBOLS options filter those out; we keep
one extra variant to model the wildcard arms of the Rust matches. -/
inductive Symbol where
  | Import (name : String)
  | Export (name : String)
  | Private (name : String)
  deriving DecidableEq, Repr

/-- The symbol collection type: wasm_nm Symbols, iterated in order. -/
abbrev Symbols := List Symbol

/-- The names carried by Import-tagged symbols, in iteration order.  This is
the local required_imports collection built inside
import_requirements_satisfied. -/
def moduleImports (symbols : Symbols) : List String :=
  symbols.filterMap fun s =>
    match s with
    | Symbol.Import name => some name
    | _ => none

/-- The names carried by Export-tagged symbols, in iteration order.  This is
the local exports collection built inside has_all_exports. -/
def moduleExports (symbols : Symbols) : List String :=
  symbols.filterMap fun s =>
    match s with
    | Symbol.Export name => some name
    | _ => none

/-- SUPPORTED_IMPORTS: all imports the host provides upon instantiating. -/
def SUPPORTED_IMPORTS : List String :=
  ["read_db", "write_db", "canonicalize_address", "humanize_address"]

/-- REQUIRED_EXPORTS: all entry points expected when calling a contract. -/
def REQUIRED_EXPORTS : List String :=
  ["query", "init", "handle", "allocate", "deallocate", "cosmwasm_api_0_6"]

/-- EXTRA_IMPORT_MSG: fixed message of the unsupported-import failure. -/
def EXTRA_IMPORT_MSG : String :=
  "WASM requires unsupported imports - version too new?"

/-- MISSING_EXPORT_MSG: fixed message of the missing-export failure. -/
def MISSING_EXPORT_MSG : String :=
  "WASM doesn't have required exports - version too old?"

/-- Rust import_requirements_satisfied: collect the names of Import symbols
and return false as soon as one is not contained in supported_imports,
true otherwise. -/
def import_requirements_satisfied (symbols : Symbols)
    (supported_imports : List String) : Bool :=
  let required_imports : List String := moduleImports symbols
  required_imports.all fun required_import =>
    supported_imports.contains required_import

/-- Rust has_all_exports: collect the names of Export symbols and return
false as soon as a required name is not contained among them, true
otherwise. -/
def has_all_exports (symbols : Symbols) (required : List String) : Bool :=
  let exports : List String := moduleExports symbols
  required.all fun i => exports.contains i

/-- Outcome of check_api_compatibility.  The Rust function returns
Result of unit and error, but it calls unwrap on the extractor result, so a
failing extraction aborts the process instead of producing any error value;
the panicked constructor models that unwrap panic. -/
inductive CheckResult where
  | ok
  | validationErr (msg : String)
  | panicked
  deriving DecidableEq, Repr

/-- Rust check_api_compatibility, parameterised over the external wasm_nm
symbol extractor.  The extractor reads the raw bytes and either yields the
symbol collection or fails; on failure the Rust code unwraps (panics).
Then the import check runs strictly before the export check. -/
def check_api_compatibility (extract : List Nat → Except String Symbols)
    (wasm_code : List Nat) : CheckResult :=
  match extract wasm_code with
  | Except.error _ => CheckResult.panicked
  | Except.ok symbols =>
    if !(import_requirements_satisfied symbols SUPPORTED_IMPORTS) then
      CheckResult.validationErr EXTRA_IMPORT_MSG
    else if !(has_all_exports symbols REQUIRED_EXPORTS) then
      CheckResult.validationErr MISSING_EXPORT_MSG
    else
      CheckResult.ok

/-- Membership in the collected import names is membership of the
corresponding Import symbol. -/
theorem mem_moduleImports {n : String} {symbols : Symbols} :
    n ∈ moduleImports symbols ↔ Symbol.Import n ∈ symbols := by
  simp only [moduleImports, List.mem_filterMap]
  constructor
  · rintro ⟨s, hs, hf⟩
    cases s with
    | Import m => simp at hf; subst hf; exact hs
    | Export m => simp at hf
    | Private m => simp at hf
  · intro h
    exact ⟨Symbol.Import n, h, rfl⟩

/-- Membership in the collected export names is membership of the
corresponding Export symbol. -/
theorem mem_moduleExports {n : String} {symbols : Symbols} :
    n ∈ moduleExports symbols ↔ Symbol.Export n ∈ symbols := by
  simp only [moduleExports, List.mem_filterMap]
  constructor
  · rintro ⟨s, hs, hf⟩
    cases s with
    | Import m => simp at hf
    | Export m => simp at hf; subst hf; exact hs
    | Private m => simp at hf
  · intro h
    exact ⟨Symbol.Export n, h, rfl⟩

/-- Characterisation of the import check as set containment. -/
theorem import_requirements_satisfied_eq_true {symbols : Symbols}
    {allowed : List String} :
    import_requirements_satisfied symbols allowed = true ↔
      ∀ n ∈ moduleImports symbols, n ∈ allowed := by
  simp [import_requirements_satisfied, List.all_eq_true]

/-- Characterisation of the export check as set containment. -/
theorem has_all_exports_eq_true {symbols : Symbols} {required : List String} :
    has_all_exports symbols required = true ↔
      ∀ n ∈ required, n ∈ moduleExports symbols := by
  simp [has_all_exports, List.all_eq_true]

/-- Auxiliary: Bool equality from the iff of the coercions. -/
theorem bool_eq_of_iff {a b : Bool} (h : a = true ↔ b = true) : a = b := by
  cases a <;> cases b <;> simp_all

/-- Scenario A symbol collection: imports exactly the four supported names
and exports the six required names. -/
def scenarioASymbols : Symbols :=
  [Symbol.Import "read_db", Symbol.Import "write_db",
   Symbol.Import "canonicalize_address", Symbol.Import "humanize_address",
   Symbol.Export "query", Symbol.Export "init", Symbol.Export "handle",
   Symbol.Export "allocate", Symbol.Export "deallocate",
   Symbol.Export "cosmwasm_api_0_6"]

/-- An extractor that yields the Scenario A symbols on every input. -/
def scenarioAExtract : List Nat → Except String Symbols :=
  fun _ => Except.ok scenarioASymbols

/-- Scenario D symbol collection: no imports, exactly the required exports. -/
def scenarioDSymbols : Symbols :=
  [Symbol.Export "query", Symbol.Export "init", Symbol.Export "handle",
   Symbol.Export "allocate", Symbol.Export "deallocate",
   Symbol.Export "cosmwasm_api_0_6"]

/-- An extractor that yields the Scenario D symbols on every input. -/
def scenarioDExtract : List Nat → Except String Symbols :=
  fun _ => Except.ok scenarioDSymbols

/-- A symbol collection failing both checks: one unsupported import and
none of the required exports. -/
def badBothSymbols : Symbols := [Symbol.Import "legacy_read"]

/-- An extractor that yields badBothSymbols on every input. -/
def badBothExtract : List Nat → Except String Symbols :=
  fun _ => Except.ok badBothSymbols

/-- An extractor that fails on every input (malformed module). -/
def failingExtract : List Nat → Except String Symbols :=
  fun _ => Except.error "invalid wasm"

/-- When extraction succeeds, the checker is the two-stage if over the two
containment primitives, import check first. -/
theorem check_api_compatibility_eq
    (extract : List Nat → Except String Symbols) (wasm_code : List Nat)
    (symbols : Symbols) (hex : extract wasm_code = Except.ok symbols) :
    check_api_compatibility extract wasm_code =
      if import_requirements_satisfied symbols SUPPORTED_IMPORTS then
        (if has_all_exports symbols REQUIRED_EXPORTS then CheckResult.ok
         else CheckResult.validationErr MISSING_EXPORT_MSG)
      else CheckResult.validationErr EXTRA_IMPORT_MSG := by
  unfold check_api_compatibility
  rw [hex]
  dsimp only
  cases import_requirements_satisfied symbols SUPPORTED_IMPORTS <;>
    cases has_all_exports symbols REQUIRED_EXPORTS <;> rfl

/-- C1: when the extractor succeeds, check_api_compatibility returns Ok
exactly when every name tagged Import is contained in SUPPORTED_IMPORTS and
every name in REQUIRED_EXPORTS is contained among the names tagged Export;
both sides are stated as pure membership containment, hence insensitive to
order and duplicates. -/
theorem check_api_compatibility_ok_iff
    (extract : List Nat → Except String Symbols) (wasm_code : List Nat)
    (symbols : Symbols) (hex : extract wasm_code = Except.ok symbols) :
    check_api_compatibility extract wasm_code = CheckResult.ok ↔
      ((∀ n ∈ moduleImports symbols, n ∈ SUPPORTED_IMPORTS) ∧
       (∀ n ∈ REQUIRED_EXPORTS, n ∈ moduleExports symbols)) := by
  rw [check_api_compatibility_eq extract wasm_code symbols hex]
  constructor
  · intro h
    by_cases h1 : import_requirements_satisfied symbols SUPPORTED_IMPORTS = true
    · rw [if_pos h1] at h
      by_cases h2 : has_all_exports symbols REQUIRED_EXPORTS = true
      · exact ⟨import_requirements_satisfied_eq_true.mp h1,
               has_all_exports_eq_true.mp h2⟩
      · rw [if_neg h2] at h
        exact CheckResult.noConfusion h
    · rw [if_neg h1] at h
      exact CheckResult.noConfusion h
  · rintro ⟨hA, hB⟩
    rw [if_pos (import_requirements_satisfied_eq_true.mpr hA),
        if_pos (has_all_exports_eq_true.mpr hB)]

/-- C1 witness: Scenario D instantiates the equivalence. -/
theorem check_api_compatibility_ok_iff_witness :
    check_api_compatibility scenarioDExtract [3] = CheckResult.ok :=
  (check_api_compatibility_ok_iff scenarioDExtract [3] scenarioDSymbols
    rfl).mpr (by decide)

/-- C2: when extraction succeeds, every failure of check_api_compatibility
carries one of the two fixed static messages, the two messages differ, and
whenever the imports violate SUPPORTED_IMPORTS and the exports also miss a
required name, the result is the unsupported-import error: the import check
is evaluated strictly before the export check. -/
theorem check_api_compatibility_error_semantics
    (extract : List Nat → Except String Symbols) (wasm_code : List Nat)
    (symbols : Symbols) (hex : extract wasm_code = Except.ok symbols) :
    (∀ msg, check_api_compatibility extract wasm_code =
        CheckResult.validationErr msg →
      msg = EXTRA_IMPORT_MSG ∨ msg = MISSING_EXPORT_MSG) ∧
    EXTRA_IMPORT_MSG ≠ MISSING_EXPORT_MSG ∧
    (import_requirements_satisfied symbols SUPPORTED_IMPORTS = false →
      has_all_exports symbols REQUIRED_EXPORTS = false →
      check_api_compatibility extract wasm_code =
        CheckResult.validationErr EXTRA_IMPORT_MSG) := by
  refine ⟨?_, by decide, ?_⟩
  · intro msg h
    rw [check_api_compatibility_eq extract wasm_code symbols hex] at h
    by_cases h1 : import_requirements_satisfied symbols SUPPORTED_IMPORTS = true
    · rw [if_pos h1] at h
      by_cases h2 : has_all_exports symbols REQUIRED_EXPORTS = true
      · rw [if_pos h2] at h
        exact CheckResult.noConfusion h
      · rw [if_neg h2] at h
        exact Or.inr (CheckResult.validationErr.inj h).symm
    · rw [if_neg h1] at h
      exact Or.inl (CheckResult.validationErr.inj h).symm
  · intro h1 _
    rw [check_api_compatibility_eq extract wasm_code symbols hex,
        if_neg (by simp [h1])]

/-- C2 witness: a module failing both checks gets the import error. -/
theorem check_api_compatibility_error_semantics_witness :
    check_api_compatibility badBothExtract [7] =
      CheckResult.validationErr EXTRA_IMPORT_MSG :=
  (check_api_compatibility_error_semantics badBothExtract [7] badBothSymbols
    rfl).2.2 (by decide) (by decide)

/-- C3 counterexample: on an input whose extraction fails, the checker
panics through unwrap: the outcome is the modelled panic, not a recoverable
error value passed through, and in particular not either
compatibility-violation error. -/
theorem check_api_compatibility_extraction_panics_cex :
    check_api_compatibility failingExtract [0, 1, 2] = CheckResult.panicked ∧
    CheckResult.panicked ≠ CheckResult.validationErr EXTRA_IMPORT_MSG ∧
    CheckResult.panicked ≠ CheckResult.validationErr MISSING_EXPORT_MSG ∧
    CheckResult.panicked ≠ CheckResult.ok := by
  refine ⟨rfl, by decide, by decide, by decide⟩

/-- C3 (amended): on every input where the extractor fails, the checker
panics through unwrap rather than returning any error value; in particular
it never produces either compatibility-violation error. -/
theorem check_api_compatibility_extraction_failure_panics
    (extract : List Nat → Except String Symbols) (wasm_code : List Nat)
    (e : String) (hex : extract wasm_code = Except.error e) :
    check_api_compatibility extract wasm_code = CheckResult.panicked := by
  unfold check_api_compatibility
  rw [hex]

/-- C3 witness: the always-failing extractor makes the checker panic. -/
theorem check_api_compatibility_extraction_failure_panics_witness :
    check_api_compatibility failingExtract [9] = CheckResult.panicked :=
  check_api_compatibility_extraction_failure_panics failingExtract [9]
    "invalid wasm" rfl

/-- C4: import_requirements_satisfied is true exactly when every name
carried by an Import-tagged symbol occurs in allowed; a collection without
Import symbols always passes, and an Import whose name is absent from
allowed forces false, regardless of extra entries in allowed. -/
theorem import_requirements_satisfied_spec (symbols : Symbols)
    (allowed : List String) :
    (import_requirements_satisfied symbols allowed = true ↔
      ∀ n, Symbol.Import n ∈ symbols → n ∈ allowed) ∧
    (moduleImports symbols = [] →
      import_requirements_satisfied symbols allowed = true) ∧
    (∀ n, Symbol.Import n ∈ symbols → n ∉ allowed →
      import_requirements_satisfied symbols allowed = false) := by
  have hiff : import_requirements_satisfied symbols allowed = true ↔
      ∀ n, Symbol.Import n ∈ symbols → n ∈ allowed := by
    rw [import_requirements_satisfied_eq_true]
    constructor
    · intro h n hn
      exact h n (mem_moduleImports.mpr hn)
    · intro h n hn
      exact h n (mem_moduleImports.mp hn)
  refine ⟨hiff, ?_, ?_⟩
  · intro hempty
    rw [import_requirements_satisfied_eq_true]
    intro n hn
    rw [hempty] at hn
    cases hn
  · intro n hn hna
    cases hb : import_requirements_satisfied symbols allowed
    · rfl
    · exact absurd (hiff.mp hb n hn) hna

/-- C4 witness: one unsupported import name fails the check. -/
theorem import_requirements_satisfied_spec_witness :
    import_requirements_satisfied badBothSymbols SUPPORTED_IMPORTS = false :=
  (import_requirements_satisfied_spec badBothSymbols SUPPORTED_IMPORTS).2.2
    "legacy_read" (by decide) (by decide)

/-- C5: has_all_exports is true exactly when every required name occurs
among the names of Export-tagged symbols, compared by exact string
equality; an empty required list always passes, and extra Export symbols
never turn a passing collection into a failing one. -/
theorem has_all_exports_spec (symbols : Symbols) (required : List String) :
    (has_all_exports symbols required = true ↔
      ∀ n ∈ required, Symbol.Export n ∈ symbols) ∧
    (has_all_exports symbols [] = true) ∧
    (∀ extra, has_all_exports symbols required = true →
      has_all_exports (Symbol.Export extra :: symbols) required = true) := by
  have hiff : has_all_exports symbols required = true ↔
      ∀ n ∈ required, Symbol.Export n ∈ symbols := by
    rw [has_all_exports_eq_true]
    constructor
    · intro h n hn
      exact mem_moduleExports.mp (h n hn)
    · intro h n hn
      exact mem_moduleExports.mpr (h n hn)
  refine ⟨hiff, ?_, ?_⟩
  · rw [has_all_exports_eq_true]
    intro n hn
    cases hn
  · intro extra h
    have h2 := has_all_exports_eq_true.mp h
    rw [has_all_exports_eq_true]
    intro n hn
    exact mem_moduleExports.mpr
      (List.mem_cons_of_mem _ (mem_moduleExports.mp (h2 n hn)))

/-- C5 witness: an extra export on top of the required set keeps passing. -/
theorem has_all_exports_spec_witness :
    has_all_exports (Symbol.Export "extra_export" :: scenarioDSymbols)
      REQUIRED_EXPORTS = true :=
  (has_all_exports_spec scenarioDSymbols REQUIRED_EXPORTS).2.2
    "extra_export" (by decide)

/-- C6: permuting the input symbol collection changes neither the import
check nor the export check. -/
theorem checks_perm_invariant (S T : Symbols) (allowed required : List String)
    (h : S.Perm T) :
    (import_requirements_satisfied S allowed =
      import_requirements_satisfied T allowed) ∧
    (has_all_exports S required = has_all_exports T required) := by
  have hpi : (moduleImports S).Perm (moduleImports T) := h.filterMap _
  have hpe : (moduleExports S).Perm (moduleExports T) := h.filterMap _
  constructor
  · apply bool_eq_of_iff
    rw [import_requirements_satisfied_eq_true,
        import_requirements_satisfied_eq_true]
    constructor
    · intro hh n hn
      exact hh n (hpi.mem_iff.mpr hn)
    · intro hh n hn
      exact hh n (hpi.mem_iff.mp hn)
  · apply bool_eq_of_iff
    rw [has_all_exports_eq_true, has_all_exports_eq_true]
    constructor
    · intro hh n hn
      exact hpe.mem_iff.mp (hh n hn)
    · intro hh n hn
      exact hpe.mem_iff.mpr (hh n hn)

/-- A two-element symbol collection and its transposition, for the C6
witness. -/
def permSymbolsA : Symbols := [Symbol.Import "read_db", Symbol.Export "init"]

/-- The transposed collection. -/
def permSymbolsB : Symbols := [Symbol.Export "init", Symbol.Import "read_db"]

/-- C6 witness: a concrete transposition leaves both checks unchanged. -/
theorem checks_perm_invariant_witness :
    (import_requirements_satisfied permSymbolsA SUPPORTED_IMPORTS =
      import_requirements_satisfied permSymbolsB SUPPORTED_IMPORTS) ∧
    (has_all_exports permSymbolsA REQUIRED_EXPORTS =
      has_all_exports permSymbolsB REQUIRED_EXPORTS) :=
  checks_perm_invariant permSymbolsA permSymbolsB SUPPORTED_IMPORTS
    REQUIRED_EXPORTS (List.Perm.swap (Symbol.Export "init")
      (Symbol.Import "read_db") [])

/-- C7: a module importing exactly the four supported names and exporting
the six required names passes check_api_compatibility. -/
theorem scenarioA_check_passes :
    check_api_compatibility scenarioAExtract [] = CheckResult.ok := rfl

/-- C8: the checker is a pure, deterministic function of the input bytes
and the fixed tables: two invocations on equal byte buffers yield equal
verdicts.  The embedding as a total function is itself the statement that
no observable state is mutated. -/
theorem check_api_compatibility_deterministic
    (extract : List Nat → Except String Symbols) (b1 b2 : List Nat)
    (h : b1 = b2) :
    check_api_compatibility extract b1 = check_api_compatibility extract b2 := by
  rw [h]

/-- C8 witness. -/
theorem check_api_compatibility_deterministic_witness :
    check_api_compatibility scenarioAExtract [5] =
      check_api_compatibility scenarioAExtract [5] :=
  check_api_compatibility_deterministic scenarioAExtract [5] [5] rfl

/-- C9: the checks are isolated by symbol kind: the import check ignores
Export-tagged symbols and depends only on the collected Import names, and
the export check ignores Import-tagged symbols and depends only on the
collected Export names. -/
theorem checks_kind_isolated (S T : Symbols) (allowed required : List String)
    (n : String) :
    (import_requirements_satisfied (Symbol.Export n :: S) allowed =
      import_requirements_satisfied S allowed) ∧
    (has_all_exports (Symbol.Import n :: S) required =
      has_all_exports S required) ∧
    (moduleImports S = moduleImports T →
      import_requirements_satisfied S allowed =
        import_requirements_satisfied T allowed) ∧
    (moduleExports S = moduleExports T →
      has_all_exports S required = has_all_exports T required) := by
  refine ⟨rfl, rfl, ?_, ?_⟩
  · intro h
    simp only [import_requirements_satisfied]
    rw [h]
  · intro h
    simp only [has_all_exports]
    rw [h]

/-- C9 witness: an interleaved Export symbol leaves the import check
unchanged. -/
theorem checks_kind_isolated_witness :
    import_requirements_satisfied
        [Symbol.Import "read_db", Symbol.Export "query"] SUPPORTED_IMPORTS =
      import_requirements_satisfied [Symbol.Import "read_db"]
        SUPPORTED_IMPORTS :=
  (checks_kind_isolated [Symbol.Import "read_db", Symbol.Export "query"]
    [Symbol.Import "read_db"] SUPPORTED_IMPORTS REQUIRED_EXPORTS "x").2.2.1
    (by decide)

/-- C10: the two configuration tables are well-formed as sets: four
pairwise-distinct supported imports, six pairwise-distinct required
exports, and no name occurs in both lists. -/
theorem config_tables_wellformed :
    SUPPORTED_IMPORTS.Nodup ∧ REQUIRED_EXPORTS.Nodup ∧
    SUPPORTED_IMPORTS.length = 4 ∧ REQUIRED_EXPORTS.length = 6 ∧
    SUPPORTED_IMPORTS.inter REQUIRED_EXPORTS = [] := by
  decide

end Compatability
